import Mathlib

/-!
Shallow embedding of the Glass photo-streaming app (src/index.ts, broadcaster
variant): the per-user capture coordinator, the photo cache, and the WebSocket
broadcast fan-out.  JavaScript `Map`s become functions `String → Option β`;
`Date` values become epoch-millisecond integers (`Date.getTime` is the
identity); the WebSocket array for the `'general'` stream becomes a list of
channel records carrying the observable facts the code branches on
(`readyState === OPEN`, and whether `send` throws).
-/

namespace Glass

/-- The functional counterpart of `Map.set`. -/
def mapSet {β : Type} (m : String → Option β) (k : String) (v : β) :
    String → Option β :=
  fun k2 => if k2 = k then some v else m k2

/-- The functional counterpart of `Map.delete`. -/
def mapDelete {β : Type} (m : String → Option β) (k : String) :
    String → Option β :=
  fun k2 => if k2 = k then none else m k2

/-- `PhotoData` as returned by `session.camera.requestPhoto()`:
`{requestId, buffer, timestamp, mimeType, filename, size}`; the buffer is a
byte list and the timestamp epoch milliseconds. -/
structure PhotoData where
  requestId : String
  buffer : List Nat
  timestamp : Int
  mimeType : String
  filename : String
  size : Nat
deriving DecidableEq, Repr

/-- `StoredPhoto` (src/index.ts lines 11-19): the cached photo, which adds the
owning `userId` to the capture result's fields. -/
structure StoredPhoto where
  requestId : String
  buffer : List Nat
  timestamp : Int
  userId : String
  mimeType : String
  filename : String
  size : Nat
deriving DecidableEq, Repr

/-- The `StoredPhoto` literal built at the top of `cachePhoto`
(lines 227-235). -/
def storedOf (photo : PhotoData) (userId : String) : StoredPhoto :=
  { requestId := photo.requestId
    buffer := photo.buffer
    timestamp := photo.timestamp
    userId := userId
    mimeType := photo.mimeType
    filename := photo.filename
    size := photo.size }

/-- One WebSocket client as the broadcaster observes it: an identity (JS
object identity), whether `readyState === WebSocket.OPEN`, and whether
`ws.send` throws when invoked. -/
structure WSChannel where
  id : Nat
  readyStateOpen : Bool
  sendFails : Bool
deriving DecidableEq, Repr

/-- `removeWebSocket` (lines 93-101) restricted to one client array:
`indexOf` followed by `splice(index, 1)` when the index is non-negative. -/
def removeWS (cs : List WSChannel) (ws : WSChannel) : List WSChannel :=
  match cs.findIdx? (fun c => decide (c = ws)) with
  | some i => cs.eraseIdx i
  | none => cs

/-- JSON values occurring in the broadcast envelope. -/
inductive JsonVal where
  | str : String → JsonVal
  | int : Int → JsonVal
deriving DecidableEq, Repr

/-- Standard base64 alphabet, as used by `Buffer.toString('base64')`. -/
def base64Alphabet : List Char :=
  "ABCDEFGHIJKLMNOPQRSTUVWXYZabcdefghijklmnopqrstuvwxyz0123456789+/".toList

/-- The character the base64 alphabet assigns to a 6-bit group. -/
def base64Char (n : Nat) : Char := base64Alphabet.getD n 'A'

/-- `Buffer.toString('base64')`: RFC 4648 base64 of a byte list, with `=`
padding. -/
def base64Encode : List Nat → String
  | [] => ""
  | [b1] =>
    String.mk [base64Char (b1 / 4), base64Char (b1 % 4 * 16)] ++ "=="
  | [b1, b2] =>
    String.mk [base64Char (b1 / 4), base64Char (b1 % 4 * 16 + b2 / 16),
      base64Char (b2 % 16 * 4)] ++ "="
  | b1 :: b2 :: b3 :: rest =>
    String.mk [base64Char (b1 / 4), base64Char (b1 % 4 * 16 + b2 / 16),
      base64Char (b2 % 16 * 4 + b3 / 64), base64Char (b3 % 64)] ++
      base64Encode rest

/-- The object passed to `JSON.stringify` in `broadcastPhoto`
(lines 110-116), as an ordered field list. -/
def photoMessage (photo : StoredPhoto) : List (String × JsonVal) :=
  [("type", JsonVal.str "photo"),
   ("data", JsonVal.str (base64Encode photo.buffer)),
   ("mimeType", JsonVal.str photo.mimeType),
   ("timestamp", JsonVal.int photo.timestamp),
   ("size", JsonVal.int (photo.size : Int))]

/-- The wire-format envelope exactly as the spec words it:
`type = "photo"`, `data` = base64 of the bytes, `mimeType`, `timestamp`
= epoch millis, `size` = byte count, and nothing else.  Written from the
spec's §6 wire format, to be compared with `photoMessage`. -/
def specEnvelope (bytes : List Nat) (mime : String) (ts : Int) (sz : Nat) :
    List (String × JsonVal) :=
  [("type", JsonVal.str "photo"),
   ("data", JsonVal.str (base64Encode bytes)),
   ("mimeType", JsonVal.str mime),
   ("timestamp", JsonVal.int ts),
   ("size", JsonVal.int (sz : Int))]

/-- One iteration body of the `clients.forEach` in `broadcastPhoto`
(lines 118-127): skip a non-open channel; send to an open one, and on a
thrown send remove the channel via `removeWebSocket` (a `splice` on the
same array the loop walks). -/
def sendStep (cs : List WSChannel) (ws : WSChannel) (delivered : List Nat) :
    List WSChannel × List Nat :=
  if ws.readyStateOpen then
    if ws.sendFails then (removeWS cs ws, delivered)
    else (cs, delivered ++ [ws.id])
  else (cs, delivered)

/-- `Array.prototype.forEach` over the (possibly spliced) client array: the
iteration count is the array's length at entry, and each step visits index
`k` of the *current* array if it still exists. -/
def sendLoop : Nat → Nat → List WSChannel → List Nat →
    List WSChannel × List Nat
  | 0, _, cs, delivered => (cs, delivered)
  | fuel + 1, k, cs, delivered =>
    match cs[k]? with
    | none => sendLoop fuel (k + 1) cs delivered
    | some ws =>
      let r := sendStep cs ws delivered
      sendLoop fuel (k + 1) r.1 r.2

/-- Result of one `broadcastPhoto` call on a client array: the array after
the loop, the ids the envelope was delivered to (in order), and the
envelope itself. -/
structure BroadcastResult where
  streams : List WSChannel
  delivered : List Nat
  message : List (String × JsonVal)
deriving DecidableEq, Repr

/-- `broadcastPhoto` (lines 106-130) acting on the `'general'` client
array. -/
def broadcastList (cs : List WSChannel) (photo : StoredPhoto) :
    BroadcastResult :=
  let r := sendLoop cs.length 0 cs []
  { streams := r.1, delivered := r.2, message := photoMessage photo }

/-- The mutable per-user maps of `ExampleMentraOSApp` (lines 40-48), plus the
`activeStreams` registry of WebSocket clients per stream id. -/
structure AppState where
  photos : String → Option StoredPhoto
  latestPhotoTimestamp : String → Option Int
  isStreamingPhotos : String → Option Bool
  nextPhotoTime : String → Option Int
  activeRequests : String → Option Bool
  activeStreams : String → Option (List WSChannel)

/-- The state of a freshly constructed app: every map empty. -/
def emptyState : AppState :=
  { photos := fun _ => none
    latestPhotoTimestamp := fun _ => none
    isStreamingPhotos := fun _ => none
    nextPhotoTime := fun _ => none
    activeRequests := fun _ => none
    activeStreams := fun _ => none }

/-- `cachePhoto` (lines 225-266): build the `StoredPhoto`, store it under the
user id, record the latest timestamp, then broadcast to the `'general'`
clients (the disk write that follows is fire-and-forget and touches no app
state). -/
def cachePhoto (s : AppState) (photo : PhotoData) (userId : String) :
    AppState :=
  let cached := storedOf photo userId
  let s1 := { s with
    photos := mapSet s.photos userId cached
    latestPhotoTimestamp :=
      mapSet s.latestPhotoTimestamp userId photo.timestamp }
  match s.activeStreams "general" with
  | none => s1
  | some cs =>
    let cs2 := (broadcastList cs cached).streams
    { s1 with activeStreams := mapSet s1.activeStreams "general" cs2 }

/-- Outcome of the awaited `session.camera.requestPhoto()` call. -/
inductive CaptureResult where
  | ok : PhotoData → CaptureResult
  | err : String → CaptureResult
deriving DecidableEq, Repr

/-- `needle` occurs as a contiguous substring of `hay`
(JavaScript `String.prototype.includes`). -/
def strContainsSubstr (hay needle : String) : Bool :=
  (List.range (hay.toList.length + 1)).any
    (fun i => needle.toList.isPrefixOf (hay.toList.drop i))

/-- The disconnect test in the `catch` of `takePhotoAsync` (line 145):
the error message includes `'WebSocket not connected'` or `'CLOSED'`. -/
def errIndicatesDisconnect (msg : String) : Bool :=
  strContainsSubstr msg "WebSocket not connected" ||
    strContainsSubstr msg "CLOSED"

/-- The completion of `takePhotoAsync` (lines 135-156) after the capture call
settles: on success `cachePhoto`; on a disconnect-flavoured error set the
user's streaming flag to false; in all cases the `finally` sets the user's
`activeRequests` entry to false. -/
def takePhotoComplete (s : AppState) (userId : String) (r : CaptureResult) :
    AppState :=
  let s1 := match r with
    | CaptureResult.ok photo => cachePhoto s photo userId
    | CaptureResult.err msg =>
      if errIndicatesDisconnect msg then
        { s with isStreamingPhotos := mapSet s.isStreamingPhotos userId false }
      else s
  { s1 with activeRequests := mapSet s1.activeRequests userId false }

/-- The per-user state initialisation at the top of `onSession`
(lines 166-168): streaming off, next photo time = now. -/
def onSessionInit (s : AppState) (userId : String) (now : Int) : AppState :=
  { s with
    isStreamingPhotos := mapSet s.isStreamingPhotos userId false
    nextPhotoTime := mapSet s.nextPhotoTime userId now }

/-- A button press is either `'long'` or anything else (the code treats every
non-long press as the short/default branch). -/
inductive PressType where
  | long : PressType
  | short : PressType
deriving DecidableEq, Repr

/-- The `onButtonPress` handler (lines 171-190).  Returns the new state and
whether a capture request was issued (`takePhotoAsync` started). -/
def onButtonPress (s : AppState) (userId : String) (press : PressType) :
    AppState × Bool :=
  match press with
  | PressType.long =>
    let newFlag := !((s.isStreamingPhotos userId).getD false)
    ({ s with isStreamingPhotos := mapSet s.isStreamingPhotos userId newFlag },
      false)
  | PressType.short =>
    if !((s.activeRequests userId).getD false) then
      ({ s with activeRequests := mapSet s.activeRequests userId true }, true)
    else (s, false)

/-- One firing of the `setInterval` tick (lines 193-210): when streaming is
on and `now` is past the next photo time, advance the next photo time by
2000ms; then, only if no request is active, mark one active and issue it.
Returns the new state and whether a capture was issued. -/
def onTick (s : AppState) (userId : String) (now : Int) : AppState × Bool :=
  if ((s.isStreamingPhotos userId).getD false) &&
      decide (now > (s.nextPhotoTime userId).getD 0) then
    let s1 := { s with nextPhotoTime := mapSet s.nextPhotoTime userId (now + 2000) }
    if !((s1.activeRequests userId).getD false) then
      ({ s1 with activeRequests := mapSet s1.activeRequests userId true }, true)
    else (s1, false)
  else (s, false)

/-- `onStop` (lines 213-220): set the streaming flag to false, delete the
next photo time and the active-request entry. -/
def onStop (s : AppState) (userId : String) : AppState :=
  { s with
    isStreamingPhotos := mapSet s.isStreamingPhotos userId false
    nextPhotoTime := mapDelete s.nextPhotoTime userId
    activeRequests := mapDelete s.activeRequests userId }

/-- The `/api/toggle-streaming` route (lines 543-560): flip the user's flag
(absent reads as false) and report the new value. -/
def toggleStreaming (s : AppState) (userId : String) : AppState × Bool :=
  let currentState := (s.isStreamingPhotos userId).getD false
  ({ s with isStreamingPhotos := mapSet s.isStreamingPhotos userId (!currentState) },
    !currentState)

/-- The `/api/photo/:requestId` lookup (lines 299-319): the cached photo for
the user, provided its request id matches. -/
def getPhotoByRequestId (s : AppState) (userId requestId : String) :
    Option StoredPhoto :=
  match s.photos userId with
  | none => none
  | some photo =>
    if photo.requestId = requestId then some photo else none

/-- Effective streaming flag of a user (absent reads as false). -/
def streamD (s : AppState) (u : String) : Bool :=
  (s.isStreamingPhotos u).getD false

/-- Effective in-flight flag of a user (absent reads as false). -/
def activeD (s : AppState) (u : String) : Bool :=
  (s.activeRequests u).getD false

/-- Sample state: user `"u"` streaming, deadline elapsed, capture in
flight. -/
def sInFlight : AppState :=
  { emptyState with
    isStreamingPhotos := mapSet emptyState.isStreamingPhotos "u" true
    nextPhotoTime := mapSet emptyState.nextPhotoTime "u" 0
    activeRequests := mapSet emptyState.activeRequests "u" true }

/-- Sample channel in the closed state. -/
def chClosed : WSChannel := { id := 0, readyStateOpen := false, sendFails := false }

/-- Sample open channel whose sends succeed. -/
def chOpen : WSChannel := { id := 1, readyStateOpen := true, sendFails := false }

/-- Sample cached photo. -/
def pSample : StoredPhoto :=
  { requestId := "r1", buffer := [77, 97, 110], timestamp := 5, userId := "u",
    mimeType := "image/jpeg", filename := "f.jpg", size := 3 }

/-- Sample capture result photo. -/
def pd1 : PhotoData :=
  { requestId := "r1", buffer := [1, 2, 3], timestamp := 10,
    mimeType := "image/jpeg", filename := "a.jpg", size := 3 }

/-- A second, distinct sample capture result photo. -/
def pd2 : PhotoData :=
  { requestId := "r2", buffer := [4, 5], timestamp := 20,
    mimeType := "image/jpeg", filename := "b.jpg", size := 2 }

/-! ## Helper lemmas -/

/-- The `finally` clause of `takePhotoAsync` always writes `false` into the
user's `activeRequests` slot, whatever the capture outcome did. -/
theorem takePhotoComplete_activeRequests (s : AppState) (u : String)
    (r : CaptureResult) :
    (takePhotoComplete s u r).activeRequests u = some false := by
  cases r <;> simp [takePhotoComplete, mapSet]

/-- `cachePhoto` updates the photo map exactly by overwriting the user's
slot, whether or not a broadcast registry entry exists. -/
theorem cachePhoto_photos (s : AppState) (p : PhotoData) (u : String) :
    (cachePhoto s p u).photos = mapSet s.photos u (storedOf p u) := by
  unfold cachePhoto
  cases h : s.activeStreams "general" <;> simp [h]

/-- `storedOf` is injective in the photo for a fixed user. -/
theorem storedOf_inj {p q : PhotoData} {u : String}
    (h : storedOf p u = storedOf q u) : p = q := by
  cases p
  cases q
  simp only [storedOf, StoredPhoto.mk.injEq] at h
  simp [PhotoData.mk.injEq]
  exact ⟨h.1, h.2.1, h.2.2.1, h.2.2.2.2.1, h.2.2.2.2.2.1, h.2.2.2.2.2.2⟩

/-- When no registered channel's send throws, the `forEach` send loop leaves
the client array untouched and delivers, in order, to exactly the open
channels among those it still has to visit. -/
theorem sendLoop_no_failure (fuel : Nat) (cs : List WSChannel)
    (h : ∀ ws ∈ cs, ws.sendFails = false) :
    ∀ k d, sendLoop fuel k cs d =
      (cs, d ++ (((cs.drop k).take fuel).filter
        (fun ws => ws.readyStateOpen)).map WSChannel.id) := by
  induction fuel with
  | zero => intro k d; simp [sendLoop]
  | succ n ih =>
    intro k d
    simp only [sendLoop]
    cases hk : cs[k]? with
    | none =>
      have hlen : cs.length ≤ k := List.getElem?_eq_none_iff.mp hk
      rw [ih (k + 1) d]
      rw [List.drop_eq_nil_of_le hlen,
        List.drop_eq_nil_of_le (Nat.le_succ_of_le hlen)]
      simp
    | some ws =>
      have hmem : ws ∈ cs := List.getElem?_mem hk
      have hws : ws.sendFails = false := h ws hmem
      obtain ⟨hlt, hget⟩ := List.getElem?_eq_some_iff.mp hk
      have hdrop : cs.drop k = ws :: cs.drop (k + 1) := by
        rw [List.drop_eq_getElem_cons hlt, hget]
      cases ho : ws.readyStateOpen with
      | false =>
        simp only [sendStep, ho, Bool.false_eq_true, if_false]
        rw [ih (k + 1) d, hdrop]
        simp [ho]
      | true =>
        simp only [sendStep, ho, hws, Bool.false_eq_true, if_false, if_true]
        rw [ih (k + 1) (d ++ [ws.id]), hdrop]
        simp [ho]

/-! ## Claim theorems -/

/-- C1: for every user and every capture outcome, the completion of
`takePhotoAsync` (its `finally` clause) leaves the in-flight flag
(`activeRequests`) at false; it never remains true once the capture call has
resolved or failed. -/
theorem inflight_cleared_on_completion (s : AppState) (u : String)
    (r : CaptureResult) :
    (takePhotoComplete s u r).activeRequests u = some false ∧
      activeD (takePhotoComplete s u r) u = false := by
  refine ⟨takePhotoComplete_activeRequests s u r, ?_⟩
  simp [activeD, takePhotoComplete_activeRequests s u r]

/-- C2 (counterexample): on a registry holding one closed and one open
channel, `broadcastPhoto` delivers to the open channel but leaves the closed
channel in the registry, contradicting the claim that the broadcast removes
it. -/
theorem broadcast_keeps_closed_channel :
    (broadcastList [chClosed, chOpen] pSample).delivered = [chOpen.id] ∧
      (broadcastList [chClosed, chOpen] pSample).streams =
        [chClosed, chOpen] ∧
      chClosed ∈ (broadcastList [chClosed, chOpen] pSample).streams := by
  decide

/-- C2 (amended): when no registered channel's send throws, `broadcastPhoto`
delivers the envelope to exactly the channels in the OPEN ready state — so
with one closed channel among N, the remaining N-1 all receive it — and the
registry is left unchanged: the closed channel is skipped, not removed. -/
theorem broadcast_delivers_to_open_channels (cs : List WSChannel)
    (photo : StoredPhoto) (h : ∀ ws ∈ cs, ws.sendFails = false) :
    (broadcastList cs photo).streams = cs ∧
      (broadcastList cs photo).delivered =
        (cs.filter (fun ws => ws.readyStateOpen)).map WSChannel.id := by
  unfold broadcastList
  rw [sendLoop_no_failure cs.length cs h 0 []]
  simp

/-- Witness for the amended C2 at a concrete two-channel registry. -/
theorem broadcast_delivers_to_open_channels_witness :
    (broadcastList [chClosed, chOpen] pSample).streams =
        [chClosed, chOpen] ∧
      (broadcastList [chClosed, chOpen] pSample).delivered =
        (([chClosed, chOpen].filter
          (fun ws => ws.readyStateOpen)).map WSChannel.id) :=
  broadcast_delivers_to_open_channels [chClosed, chOpen] pSample (by decide)

/-- C3 (counterexample): a tick arriving while a capture is in flight (user
streaming, deadline elapsed) advances `nextPhotoTime` from 0 to 2001 even
though it issues nothing, contradicting the claim that such a tick leaves
`nextEligibleCaptureAt` unchanged. -/
theorem tick_during_inflight_advances_deadline :
    sInFlight.nextPhotoTime "u" = some 0 ∧
      activeD sInFlight "u" = true ∧
      (onTick sInFlight "u" 1).1.nextPhotoTime "u" = some 2001 ∧
      (onTick sInFlight "u" 1).2 = false := by
  decide

/-- C3 (amended): a tick advances `nextPhotoTime` to `now + 2000` exactly
when streaming is enabled and `now` is past the deadline — even while a
capture is in flight — and issues a capture (marking one active) exactly
when additionally no capture is in flight; it never touches the streaming
flag or the photo cache. -/
theorem tick_behaviour (s : AppState) (u : String) (now : Int) :
    (onTick s u now).2 =
        (streamD s u && decide (now > (s.nextPhotoTime u).getD 0) &&
          !activeD s u) ∧
      (onTick s u now).1.nextPhotoTime u =
        (if streamD s u && decide (now > (s.nextPhotoTime u).getD 0) then
          some (now + 2000) else s.nextPhotoTime u) ∧
      (onTick s u now).1.activeRequests u =
        (if streamD s u && decide (now > (s.nextPhotoTime u).getD 0) &&
            !activeD s u then
          some true else s.activeRequests u) ∧
      (onTick s u now).1.isStreamingPhotos = s.isStreamingPhotos ∧
      (onTick s u now).1.photos = s.photos := by
  unfold streamD activeD
  cases hs : (s.isStreamingPhotos u).getD false <;>
    cases hn : decide (now > (s.nextPhotoTime u).getD 0) <;>
      cases ha : (s.activeRequests u).getD false <;>
        simp [onTick, mapSet, hs, hn, ha]

/-- C4 (counterexample): after `onStop`, the user's streaming entry is still
present (set to false, not removed), and the completion of a capture that
was in flight at stop time re-creates the `activeRequests` entry with value
false — contradicting the claim that all entries are removed and that the
completion recreates no per-user state. -/
theorem stop_keeps_flag_and_completion_recreates :
    (onStop sInFlight "u").isStreamingPhotos "u" = some false ∧
      (onStop sInFlight "u").activeRequests "u" = none ∧
      (takePhotoComplete (onStop sInFlight "u") "u"
        (CaptureResult.err "boom")).activeRequests "u" = some false := by
  decide

/-- C4 (amended): `onStop` sets the streaming flag to false (the entry
remains), deletes the `nextPhotoTime` and `activeRequests` entries, and
leaves other users and the photo cache alone; the completion handler of a
capture still in flight does not throw, but re-creates the `activeRequests`
entry as false, and on success still caches the photo for the stopped
user. -/
theorem stop_semantics (s : AppState) (u : String) (r : CaptureResult)
    (p : PhotoData) :
    (onStop s u).isStreamingPhotos u = some false ∧
      (onStop s u).nextPhotoTime u = none ∧
      (onStop s u).activeRequests u = none ∧
      (takePhotoComplete (onStop s u) u r).activeRequests u = some false ∧
      (takePhotoComplete (onStop s u) u
        (CaptureResult.ok p)).photos u = some (storedOf p u) ∧
      (∀ v, v ≠ u →
        (onStop s u).isStreamingPhotos v = s.isStreamingPhotos v ∧
          (onStop s u).nextPhotoTime v = s.nextPhotoTime v ∧
          (onStop s u).activeRequests v = s.activeRequests v) ∧
      (onStop s u).photos = s.photos := by
  refine ⟨by simp [onStop, mapSet], by simp [onStop, mapDelete],
    by simp [onStop, mapDelete],
    takePhotoComplete_activeRequests _ _ _, ?_, ?_, rfl⟩
  · simp only [takePhotoComplete]
    rw [cachePhoto_photos]
    simp [mapSet]
  · intro v hv
    simp [onStop, mapSet, mapDelete, hv]

/-- Witness for the amended C4 at a concrete state and outcome. -/
theorem stop_semantics_witness :
    (onStop sInFlight "u").isStreamingPhotos "u" = some false ∧
      (onStop sInFlight "u").nextPhotoTime "u" = none ∧
      (onStop sInFlight "u").activeRequests "u" = none ∧
      (takePhotoComplete (onStop sInFlight "u") "u"
        (CaptureResult.err "x")).activeRequests "u" = some false ∧
      (takePhotoComplete (onStop sInFlight "u") "u"
        (CaptureResult.ok pd1)).photos "u" = some (storedOf pd1 "u") ∧
      (∀ v, v ≠ "u" →
        (onStop sInFlight "u").isStreamingPhotos v =
            sInFlight.isStreamingPhotos v ∧
          (onStop sInFlight "u").nextPhotoTime v = sInFlight.nextPhotoTime v ∧
          (onStop sInFlight "u").activeRequests v =
            sInFlight.activeRequests v) ∧
      (onStop sInFlight "u").photos = sInFlight.photos :=
  stop_semantics sInFlight "u" (CaptureResult.err "x") pd1

/-- C5: a capture failure whose message contains "WebSocket not connected"
turns the user's streaming flag off, and any tick on a state whose streaming
flag is off issues no capture and changes nothing — so no capture is issued
until streaming is re-enabled. -/
theorem ws_disconnect_stops_streaming (s : AppState) (u : String)
    (msg : String)
    (h : strContainsSubstr msg "WebSocket not connected" = true) :
    (takePhotoComplete s u
        (CaptureResult.err msg)).isStreamingPhotos u = some false ∧
      (∀ s2 now, s2.isStreamingPhotos u = some false →
        (onTick s2 u now).2 = false ∧ (onTick s2 u now).1 = s2) := by
  constructor
  · simp [takePhotoComplete, errIndicatesDisconnect, h, mapSet]
  · intro s2 now h2
    simp [onTick, h2]

/-- Witness for C5 at a concrete disconnect message. -/
theorem ws_disconnect_stops_streaming_witness :
    (takePhotoComplete emptyState "u"
        (CaptureResult.err "WebSocket not connected")).isStreamingPhotos "u" =
        some false ∧
      (∀ s2 now, s2.isStreamingPhotos "u" = some false →
        (onTick s2 "u" now).2 = false ∧ (onTick s2 "u" now).1 = s2) :=
  ws_disconnect_stops_streaming emptyState "u" "WebSocket not connected"
    (by decide)

/-- C6: a short press with no capture in flight marks one in flight and
issues exactly one capture request; a short press while one is in flight
returns the state unchanged and issues nothing — and in either case the
in-flight flag is true afterwards, so at most one capture is in flight. -/
theorem short_press_dedup (s : AppState) (u : String) :
    (onButtonPress s u PressType.short).2 = !activeD s u ∧
      (onButtonPress s u PressType.short).1 =
        (if activeD s u then s
         else { s with activeRequests := mapSet s.activeRequests u true }) ∧
      activeD (onButtonPress s u PressType.short).1 u = true := by
  cases ha : (s.activeRequests u).getD false <;>
    simp [onButtonPress, activeD, mapSet, ha]

/-- C7: both toggle paths — the long button press and the
`/api/toggle-streaming` endpoint — record exactly the negation of the prior
effective flag (the endpoint also reports it), and applying either toggle
twice returns the flag to its original value. -/
theorem streaming_toggle_involutive (s : AppState) (u : String) :
    (toggleStreaming s u).2 = !streamD s u ∧
      streamD (toggleStreaming s u).1 u = !streamD s u ∧
      streamD (toggleStreaming (toggleStreaming s u).1 u).1 u = streamD s u ∧
      streamD (onButtonPress s u PressType.long).1 u = !streamD s u ∧
      streamD (onButtonPress (onButtonPress s u PressType.long).1 u
        PressType.long).1 u = streamD s u := by
  simp [toggleStreaming, onButtonPress, streamD, mapSet]

/-- C8: the broadcast message is exactly the five-field JSON envelope of the
spec — `type = "photo"`, `data` = base64 of the photo bytes, `mimeType`,
`timestamp` = epoch millis, `size` — with no other fields and no other
encoding. -/
theorem broadcast_envelope_is_spec_format (cs : List WSChannel)
    (photo : StoredPhoto) :
    (broadcastList cs photo).message =
      specEnvelope photo.buffer photo.mimeType photo.timestamp photo.size :=
  rfl

/-- C9: caching `p1` then `p2` for user `u` leaves exactly `p2` cached and
retrievable for `u`; `p1` is no longer retrievable for any request id, and
every other user's cached photo is untouched. -/
theorem cache_photo_replaces (s : AppState) (u : String) (p1 p2 : PhotoData)
    (h : p1 ≠ p2) :
    (cachePhoto (cachePhoto s p1 u) p2 u).photos u = some (storedOf p2 u) ∧
      getPhotoByRequestId (cachePhoto (cachePhoto s p1 u) p2 u) u
          p2.requestId = some (storedOf p2 u) ∧
      (∀ rid, getPhotoByRequestId (cachePhoto (cachePhoto s p1 u) p2 u) u
          rid ≠ some (storedOf p1 u)) ∧
      (∀ v, v ≠ u →
        (cachePhoto (cachePhoto s p1 u) p2 u).photos v = s.photos v) := by
  have h2 : (cachePhoto (cachePhoto s p1 u) p2 u).photos u =
      some (storedOf p2 u) := by
    rw [cachePhoto_photos, cachePhoto_photos]
    simp [mapSet]
  refine ⟨h2, by simp [getPhotoByRequestId, h2, storedOf], ?_, ?_⟩
  · intro rid
    by_cases hr : (storedOf p2 u).requestId = rid
    · simp only [getPhotoByRequestId, h2, hr, if_pos]
      intro heq
      simp only [Option.some.injEq] at heq
      exact h (storedOf_inj heq).symm
    · simp [getPhotoByRequestId, h2, hr]
  · intro v hv
    rw [cachePhoto_photos, cachePhoto_photos]
    simp [mapSet, hv]

/-- Witness for C9 at two concrete distinct photos. -/
theorem cache_photo_replaces_witness :
    (cachePhoto (cachePhoto emptyState pd1 "u") pd2 "u").photos "u" =
        some (storedOf pd2 "u") ∧
      getPhotoByRequestId (cachePhoto (cachePhoto emptyState pd1 "u") pd2
          "u") "u" pd2.requestId = some (storedOf pd2 "u") ∧
      (∀ rid, getPhotoByRequestId (cachePhoto (cachePhoto emptyState pd1
          "u") pd2 "u") "u" rid ≠ some (storedOf pd1 "u")) ∧
      (∀ v, v ≠ "u" →
        (cachePhoto (cachePhoto emptyState pd1 "u") pd2 "u").photos v =
          emptyState.photos v) :=
  cache_photo_replaces emptyState "u" pd1 pd2 (by decide)

/-- C10: starting a session overwrites only the coordinator entries for the
user — streaming forced to false, next photo time to now — while the photo
cache, the latest-timestamp map, the in-flight map, the registry, and every
photo lookup through the query interface are unchanged. -/
theorem session_init_preserves_cache (s : AppState) (u : String) (now : Int) :
    (onSessionInit s u now).isStreamingPhotos u = some false ∧
      (onSessionInit s u now).nextPhotoTime u = some now ∧
      (onSessionInit s u now).photos = s.photos ∧
      (onSessionInit s u now).latestPhotoTimestamp =
        s.latestPhotoTimestamp ∧
      (onSessionInit s u now).activeRequests = s.activeRequests ∧
      (onSessionInit s u now).activeStreams = s.activeStreams ∧
      (∀ v rid, getPhotoByRequestId (onSessionInit s u now) v rid =
        getPhotoByRequestId s v rid) := by
  refine ⟨by simp [onSessionInit, mapSet], by simp [onSessionInit, mapSet],
    rfl, rfl, rfl, rfl, fun v rid => rfl⟩

end Glass
